import Mathlib

/-!
# Ohara: the deployment procedure (`contract/deploy.go`) and `helper.IfErrFatal`

The program is one linear procedure, `main`, over calls into the operating
system, `godotenv` and go-ethereum, plus the helper `IfErrFatal`.

Embedding:

* every call that leaves the repository is answered by a `World`: one field per
  external function, a function of the arguments `main` passes;
* a computation is a `Run`: the list of observable events it produced (external
  calls with their arguments and results, log records, `os.Exit`, `Close`) and how
  it ended (`ret`, `exited`, `panicked`);
* Go semantics used: `log.Fatalf` writes one log record and calls `os.Exit(1)`;
  `os.Exit` ends the process at once and deferred calls are not run; a deferred
  call runs when the surrounding function returns or panics; `int64(x)` of a
  `uint64` keeps the 64 bits (two's complement).
-/

namespace Ohara

/-! ## Data -/

/-- A non-nil Go `error`; `text` is what `Error()` returns (what `%v` prints). -/
structure GoError where
  text : String
deriving DecidableEq, Repr

/-- `common.Address`, kept abstract. -/
abbrev Address := Nat

/-- A connected `*ethclient.Client`, kept abstract (a handle). -/
abbrev Client := Nat

/-- `ecdsa.PublicKey` (the curve is fixed). -/
structure PublicKey where
  X : Nat
  Y : Nat
deriving DecidableEq, Repr

/-- `ecdsa.PrivateKey`: it embeds the public key. -/
structure PrivateKey where
  PublicKey : PublicKey
  D : Nat
deriving DecidableEq, Repr

/-- `keystore.Key`, the fields `main` can reach. -/
structure Key where
  Address : Address
  PrivateKey : PrivateKey
deriving DecidableEq, Repr

/-- `bind.TransactOpts`: the fields `main` assigns, `From`, and the signer (which is
where go-ethereum keeps the chain ID the context was bound to; abstract here).
`*big.Int` fields are `Option Int` (`none` is the nil pointer). -/
structure TransactOpts where
  From : Address
  Signer : Nat
  Nonce : Option Int
  GasLimit : Nat
  GasFeeCap : Option Int
  GasTipCap : Option Int
deriving DecidableEq, Repr

/-- What an observer of the process sees, in order. Calls carry their arguments and
what they returned (`err = none` is a nil error). -/
inductive Event where
  | getwd (err : Option GoError)
  | load (path : String) (err : Option GoError)
  | getenv (key : String)
  | readFile (path : String) (err : Option GoError)
  | decryptKey (keyjson : List Nat) (auth : String) (err : Option GoError)
  | pubkeyToAddress (p : PublicKey)
  | dial (rawurl : String) (err : Option GoError)
  | chainID (c : Client) (val : Option Int) (err : Option GoError)
  | pendingNonceAt (c : Client) (account : Address) (val : Nat) (err : Option GoError)
  | newKeyedTransactor (key : PrivateKey) (chainID : Option Int) (err : Option GoError)
  | close (c : Client)
  | log (line : String)
  | exit (code : Nat)
deriving DecidableEq, Repr

/-- The answers of everything outside the repository. Checked calls answer
`Except` (a value or a non-nil error); the two queries whose error `main` discards
answer the Go pair as it is, value and error. -/
structure World where
  getwd : Except GoError String
  join : String → String → String
  load : String → Option GoError
  getenv : String → String
  readFile : String → Except GoError (List Nat)
  decryptKey : List Nat → String → Except GoError Key
  pubkeyToAddress : PublicKey → Address
  dialContext : String → Except GoError Client
  chainID : Client → Option Int × Option GoError
  pendingNonceAt : Client → Address → Nat × Option GoError
  newKeyedTransactorWithChainID : PrivateKey → Option Int → Except GoError TransactOpts

/-! ## Effects -/

/-- How a computation ended. -/
inductive Outcome (α : Type) where
  | ret (a : α)
  | exited (code : Nat)
  | panicked
deriving DecidableEq, Repr

/-- A computation that has run: its events and its end. -/
structure Run (α : Type) where
  events : List Event
  outcome : Outcome α
deriving DecidableEq, Repr

/-- Sequencing: what follows runs only after a normal return. -/
def Run.bind {α β : Type} (m : Run α) (f : α → Run β) : Run β :=
  match m.outcome with
  | .ret a => ⟨m.events ++ (f a).events, (f a).outcome⟩
  | .exited code => ⟨m.events, .exited code⟩
  | .panicked => ⟨m.events, .panicked⟩

instance : Monad Run where
  pure a := ⟨[], .ret a⟩
  bind := Run.bind

/-- Record one event. -/
def emit (e : Event) : Run Unit := ⟨[e], .ret ()⟩

/-- Go `os.Exit(code)`: the process ends here. -/
def osExit {α : Type} (code : Nat) : Run α := ⟨[.exit code], .exited code⟩

/-- Go `log.Fatalf`: one log record, then `os.Exit(1)`. The argument is the
formatted message. -/
def logFatalf {α : Type} (line : String) : Run α := do
  emit (.log line)
  osExit 1

/-- Dereference of a Go pointer: a nil pointer panics. -/
def deref {α : Type} : Option α → Run α
  | some a => pure a
  | none => ⟨[], .panicked⟩

/-- Go `defer d` followed by `body`: `d` runs when the body returns or panics, and
does not run when the process exits inside the body. -/
def withDefer {α : Type} (d : Run Unit) (body : Run α) : Run α :=
  match body.outcome with
  | .ret a =>
    match d.outcome with
    | .ret _ => ⟨body.events ++ d.events, .ret a⟩
    | .exited code => ⟨body.events ++ d.events, .exited code⟩
    | .panicked => ⟨body.events ++ d.events, .panicked⟩
  | .exited code => ⟨body.events, .exited code⟩
  | .panicked =>
    match d.outcome with
    | .exited code => ⟨body.events ++ d.events, .exited code⟩
    | _ => ⟨body.events ++ d.events, .panicked⟩

/-! ## External calls, Go-shaped: value (zero value on error) and error -/

def osGetwd (w : World) : Run (String × Option GoError) :=
  match w.getwd with
  | .ok dir => do emit (.getwd none); pure (dir, none)
  | .error e => do emit (.getwd (some e)); pure ("", some e)

def godotenvLoad (w : World) (path : String) : Run (Option GoError) := do
  emit (.load path (w.load path))
  pure (w.load path)

def osGetenv (w : World) (key : String) : Run String := do
  emit (.getenv key)
  pure (w.getenv key)

def osReadFile (w : World) (path : String) : Run (List Nat × Option GoError) :=
  match w.readFile path with
  | .ok bytes => do emit (.readFile path none); pure (bytes, none)
  | .error e => do emit (.readFile path (some e)); pure ([], some e)

def keystoreDecryptKey (w : World) (keyjson : List Nat) (auth : String) :
    Run (Option Key × Option GoError) :=
  match w.decryptKey keyjson auth with
  | .ok k => do emit (.decryptKey keyjson auth none); pure (some k, none)
  | .error e => do emit (.decryptKey keyjson auth (some e)); pure (none, some e)

def cryptoPubkeyToAddress (w : World) (p : PublicKey) : Run Address := do
  emit (.pubkeyToAddress p)
  pure (w.pubkeyToAddress p)

def ethclientDialContext (w : World) (rawurl : String) :
    Run (Option Client × Option GoError) :=
  match w.dialContext rawurl with
  | .ok c => do emit (.dial rawurl none); pure (some c, none)
  | .error e => do emit (.dial rawurl (some e)); pure (none, some e)

/-- Method `(*Client).Close`; a nil receiver panics. -/
def clientClose (c : Option Client) : Run Unit := do
  let h ← deref c
  emit (.close h)

/-- Method `(*Client).ChainID`; a nil receiver panics. -/
def clientChainID (w : World) (c : Option Client) : Run (Option Int × Option GoError) := do
  let h ← deref c
  emit (.chainID h (w.chainID h).1 (w.chainID h).2)
  pure (w.chainID h)

/-- Method `(*Client).PendingNonceAt`; a nil receiver panics. -/
def clientPendingNonceAt (w : World) (c : Option Client) (account : Address) :
    Run (Nat × Option GoError) := do
  let h ← deref c
  emit (.pendingNonceAt h account (w.pendingNonceAt h account).1 (w.pendingNonceAt h account).2)
  pure (w.pendingNonceAt h account)

def bindNewKeyedTransactorWithChainID (w : World) (key : PrivateKey) (chainID : Option Int) :
    Run (Option TransactOpts × Option GoError) :=
  match w.newKeyedTransactorWithChainID key chainID with
  | .ok o => do emit (.newKeyedTransactor key chainID none); pure (some o, none)
  | .error e => do emit (.newKeyedTransactor key chainID (some e)); pure (none, some e)

/-- Go conversion `int64(x)` of a `uint64`: the same 64 bits read as two's complement. -/
def int64OfUint64 (x : Nat) : Int :=
  if x % 2 ^ 64 < 2 ^ 63 then ((x % 2 ^ 64 : Nat) : Int) else ((x % 2 ^ 64 : Nat) : Int) - 2 ^ 64

/-! ## The repository's code -/

/-- `helper/error.go`, `IfErrFatal`. -/
def IfErrFatal (err : Option GoError) (msg : String) : Run Unit :=
  match err with
  | some e => logFatalf ("Error in " ++ msg ++ ": " ++ e.text)
  | none => pure ()

/-- The keystore path of `deploy.go` line 30. -/
def walletPath : String :=
  "./UTC--2025-01-14T11-02-41.636529300Z--0d518a4c445bbfad90c8382a051a91087d930253"

/-- `baseFee := big.NewInt(20000000)`, line 46. -/
def baseFee : Int := 20000000

/-- `tipCap := big.NewInt(1000000000)`, line 47. -/
def tipCap : Int := 1000000000

/-- `gasFeeCap := new(big.Int).Add(baseFee, tipCap)`, line 48. -/
def gasFeeCap : Int := baseFee + tipCap

/-- `contract/deploy.go`, `main`. The value returned on a normal end is the local
`opts` as it stands at the `//DEPLOY` comment (Go's `main` returns nothing; the
value is kept so that properties of the signing context can be stated). -/
def main (w : World) : Run TransactOpts := do
  let (cwd, err) ← osGetwd w
  IfErrFatal err "env not found in workdir"
  let envFilePath := w.join cwd ".env"
  let err ← godotenvLoad w envFilePath
  match err with
    | some e => logFatalf ("Error loading .env file from path " ++ envFilePath ++ ": " ++ e.text)
    | none => pure ()
  let url ← osGetenv w "DEPLOY_URL"
  let pass ← osGetenv w "PASS_WALLET_OWNER"
  let (file, err) ← osReadFile w walletPath
  IfErrFatal err "not found file wallet"
  let (decryptKey, err) ← keystoreDecryptKey w file pass
  IfErrFatal err "failed decrypt wallet wrong pass"
  let pvKey := (← deref decryptKey).PrivateKey
  let publicKey := (← deref decryptKey).PrivateKey.PublicKey
  let addr ← cryptoPubkeyToAddress w publicKey
  let (c, err) ← ethclientDialContext w url
  IfErrFatal err "failed connect client"
  withDefer (clientClose c) do
    let (chainID, _) ← clientChainID w c
    let (nonceID, _) ← clientPendingNonceAt w c addr
    let (opts, err) ← bindNewKeyedTransactorWithChainID w pvKey chainID
    IfErrFatal err "failed to bind"
    let o ← deref opts
    let o := { o with Nonce := some (int64OfUint64 nonceID) }
    let o := { o with GasLimit := 5000000 }
    let o := { o with GasFeeCap := some gasFeeCap }
    let o := { o with GasTipCap := some tipCap }
    pure o

/-! ## Vocabulary of the statements -/

/-- The log record `main` writes for an event that is a checked call returning a
non-nil error (lines 20, 24, 31, 33, 41, 51); `none` for every other event: calls
that succeeded, the chain-ID and nonce queries (their error is discarded, lines 44
and 45), log records, `Close`, `os.Exit`. -/
def Event.fatalLabel : Event → Option String
  | .getwd (some e) => some ("Error in env not found in workdir: " ++ e.text)
  | .load path (some e) => some ("Error loading .env file from path " ++ path ++ ": " ++ e.text)
  | .readFile _ (some e) => some ("Error in not found file wallet: " ++ e.text)
  | .decryptKey _ _ (some e) => some ("Error in failed decrypt wallet wrong pass: " ++ e.text)
  | .dial _ (some e) => some ("Error in failed connect client: " ++ e.text)
  | .newKeyedTransactor _ _ (some e) => some ("Error in failed to bind: " ++ e.text)
  | _ => none

/-- The event is a call leaving the repository (not a log record, not `os.Exit`). -/
def Event.isCall : Event → Bool
  | .log _ => false
  | .exit _ => false
  | _ => true

/-- The event is a failure of identity loading: `godotenv.Load`, `os.ReadFile` of the
keystore or `keystore.DecryptKey` returned an error. -/
def Event.identityFailure : Event → Bool
  | .load _ (some _) => true
  | .readFile _ (some _) => true
  | .decryptKey _ _ (some _) => true
  | _ => false

/-- The event is a step that needs the decrypted key or comes after it: deriving the
address, opening or using or closing the node connection, building the signing
context. -/
def Event.afterIdentity : Event → Bool
  | .pubkeyToAddress _ => true
  | .dial _ _ => true
  | .chainID _ _ _ => true
  | .pendingNonceAt _ _ _ _ => true
  | .newKeyedTransactor _ _ _ => true
  | .close _ => true
  | _ => false

/-- Number of connections opened in a trace (successful `DialContext`). -/
def openCount (evs : List Event) : Nat :=
  (evs.filter fun ev => match ev with
    | .dial _ none => true
    | _ => false).length

/-- Number of connections closed in a trace. -/
def closeCount (evs : List Event) : Nat :=
  (evs.filter fun ev => match ev with
    | .close _ => true
    | _ => false).length

/-! ## Concrete worlds -/

def sampleKey : Key := ⟨7, ⟨⟨11, 13⟩, 17⟩⟩

/-- A world where every call succeeds; the node answers chain ID 1 and pending
nonce 5. Its transactor constructor behaves like go-ethereum's: a nil chain ID is
refused, and `From` is the address of the key. -/
def worldOk : World where
  getwd := .ok "/w"
  join a b := a ++ "/" ++ b
  load _ := none
  getenv k := if k = "DEPLOY_URL" then "http://node" else "secret"
  readFile _ := .ok [1, 2, 3]
  decryptKey _ _ := .ok sampleKey
  pubkeyToAddress p := p.X - 4
  dialContext _ := .ok 42
  chainID _ := (some 1, none)
  pendingNonceAt _ _ := (5, none)
  newKeyedTransactorWithChainID k cid :=
    match cid with
    | none => .error ⟨"no chain id specified"⟩
    | some n => .ok ⟨k.PublicKey.X - 4, n.toNat, none, 0, none, none⟩

/-- As `worldOk`, but the nonce query fails (value 0, a non-nil error). -/
def worldNonceFails : World :=
  { worldOk with pendingNonceAt := fun _ _ => (0, some ⟨"connection reset"⟩) }

/-- As `worldOk`, but the chain-ID query fails (nil value, a non-nil error); the
transactor constructor then refuses the nil chain ID. -/
def worldChainIDFails : World :=
  { worldOk with chainID := fun _ => (none, some ⟨"connection reset"⟩) }

/-- As `worldOk`, but `godotenv.Load` fails. -/
def worldLoadFails : World :=
  { worldOk with load := fun _ => some ⟨"open /w/.env: no such file or directory"⟩ }

/-- As `worldOk`, but the node answers the largest `uint64` as pending nonce. -/
def worldHugeNonce : World :=
  { worldOk with pendingNonceAt := fun _ _ => (2 ^ 64 - 1, none) }

/-! ## The runs of `main`, one shape per first failing checked step -/

theorem main_getwd_error (w : World) (e : GoError) (h1 : w.getwd = .error e) :
    main w = ⟨[.getwd (some e), .log ("Error in env not found in workdir: " ++ e.text),
      .exit 1], .exited 1⟩ := by
  simp [main, osGetwd, h1, IfErrFatal, logFatalf, emit, osExit, bind, Run.bind, pure]

theorem main_load_error (w : World) (cwd : String) (e : GoError) (h1 : w.getwd = .ok cwd)
    (h2 : w.load (w.join cwd ".env") = some e) :
    main w = ⟨[.getwd none, .load (w.join cwd ".env") (some e),
      .log ("Error loading .env file from path " ++ w.join cwd ".env" ++ ": " ++ e.text),
      .exit 1], .exited 1⟩ := by
  simp [main, osGetwd, godotenvLoad, h1, h2, IfErrFatal, logFatalf, emit, osExit, bind,
    Run.bind, pure]

theorem main_readFile_error (w : World) (cwd : String) (e : GoError) (h1 : w.getwd = .ok cwd)
    (h2 : w.load (w.join cwd ".env") = none) (h3 : w.readFile walletPath = .error e) :
    main w = ⟨[.getwd none, .load (w.join cwd ".env") none, .getenv "DEPLOY_URL",
      .getenv "PASS_WALLET_OWNER", .readFile walletPath (some e),
      .log ("Error in not found file wallet: " ++ e.text), .exit 1], .exited 1⟩ := by
  simp [main, osGetwd, godotenvLoad, osGetenv, osReadFile, h1, h2, h3, IfErrFatal, logFatalf,
    emit, osExit, bind, Run.bind, pure]

theorem main_decryptKey_error (w : World) (cwd : String) (file : List Nat) (e : GoError)
    (h1 : w.getwd = .ok cwd) (h2 : w.load (w.join cwd ".env") = none)
    (h3 : w.readFile walletPath = .ok file)
    (h4 : w.decryptKey file (w.getenv "PASS_WALLET_OWNER") = .error e) :
    main w = ⟨[.getwd none, .load (w.join cwd ".env") none, .getenv "DEPLOY_URL",
      .getenv "PASS_WALLET_OWNER", .readFile walletPath none,
      .decryptKey file (w.getenv "PASS_WALLET_OWNER") (some e),
      .log ("Error in failed decrypt wallet wrong pass: " ++ e.text), .exit 1],
      .exited 1⟩ := by
  simp [main, osGetwd, godotenvLoad, osGetenv, osReadFile, keystoreDecryptKey, h1, h2, h3, h4,
    IfErrFatal, logFatalf, emit, osExit, bind, Run.bind, pure]

theorem main_dial_error (w : World) (cwd : String) (file : List Nat) (key : Key) (e : GoError)
    (h1 : w.getwd = .ok cwd) (h2 : w.load (w.join cwd ".env") = none)
    (h3 : w.readFile walletPath = .ok file)
    (h4 : w.decryptKey file (w.getenv "PASS_WALLET_OWNER") = .ok key)
    (h5 : w.dialContext (w.getenv "DEPLOY_URL") = .error e) :
    main w = ⟨[.getwd none, .load (w.join cwd ".env") none, .getenv "DEPLOY_URL",
      .getenv "PASS_WALLET_OWNER", .readFile walletPath none,
      .decryptKey file (w.getenv "PASS_WALLET_OWNER") none,
      .pubkeyToAddress key.PrivateKey.PublicKey, .dial (w.getenv "DEPLOY_URL") (some e),
      .log ("Error in failed connect client: " ++ e.text), .exit 1], .exited 1⟩ := by
  simp [main, osGetwd, godotenvLoad, osGetenv, osReadFile, keystoreDecryptKey, deref,
    cryptoPubkeyToAddress, ethclientDialContext, h1, h2, h3, h4, h5, IfErrFatal, logFatalf,
    emit, osExit, bind, Run.bind, pure]

theorem main_bind_error (w : World) (cwd : String) (file : List Nat) (key : Key) (c : Client)
    (e : GoError) (h1 : w.getwd = .ok cwd) (h2 : w.load (w.join cwd ".env") = none)
    (h3 : w.readFile walletPath = .ok file)
    (h4 : w.decryptKey file (w.getenv "PASS_WALLET_OWNER") = .ok key)
    (h5 : w.dialContext (w.getenv "DEPLOY_URL") = .ok c)
    (h6 : w.newKeyedTransactorWithChainID key.PrivateKey (w.chainID c).1 = .error e) :
    main w = ⟨[.getwd none, .load (w.join cwd ".env") none, .getenv "DEPLOY_URL",
      .getenv "PASS_WALLET_OWNER", .readFile walletPath none,
      .decryptKey file (w.getenv "PASS_WALLET_OWNER") none,
      .pubkeyToAddress key.PrivateKey.PublicKey, .dial (w.getenv "DEPLOY_URL") none,
      .chainID c (w.chainID c).1 (w.chainID c).2,
      .pendingNonceAt c (w.pubkeyToAddress key.PrivateKey.PublicKey)
        (w.pendingNonceAt c (w.pubkeyToAddress key.PrivateKey.PublicKey)).1
        (w.pendingNonceAt c (w.pubkeyToAddress key.PrivateKey.PublicKey)).2,
      .newKeyedTransactor key.PrivateKey (w.chainID c).1 (some e),
      .log ("Error in failed to bind: " ++ e.text), .exit 1], .exited 1⟩ := by
  simp [main, osGetwd, godotenvLoad, osGetenv, osReadFile, keystoreDecryptKey, deref,
    cryptoPubkeyToAddress, ethclientDialContext, withDefer, clientClose, clientChainID,
    clientPendingNonceAt, bindNewKeyedTransactorWithChainID, h1, h2, h3, h4, h5, h6,
    IfErrFatal, logFatalf, emit, osExit, bind, Run.bind, pure]

theorem main_bind_ok (w : World) (cwd : String) (file : List Nat) (key : Key) (c : Client)
    (base : TransactOpts) (h1 : w.getwd = .ok cwd) (h2 : w.load (w.join cwd ".env") = none)
    (h3 : w.readFile walletPath = .ok file)
    (h4 : w.decryptKey file (w.getenv "PASS_WALLET_OWNER") = .ok key)
    (h5 : w.dialContext (w.getenv "DEPLOY_URL") = .ok c)
    (h6 : w.newKeyedTransactorWithChainID key.PrivateKey (w.chainID c).1 = .ok base) :
    main w = ⟨[.getwd none, .load (w.join cwd ".env") none, .getenv "DEPLOY_URL",
      .getenv "PASS_WALLET_OWNER", .readFile walletPath none,
      .decryptKey file (w.getenv "PASS_WALLET_OWNER") none,
      .pubkeyToAddress key.PrivateKey.PublicKey, .dial (w.getenv "DEPLOY_URL") none,
      .chainID c (w.chainID c).1 (w.chainID c).2,
      .pendingNonceAt c (w.pubkeyToAddress key.PrivateKey.PublicKey)
        (w.pendingNonceAt c (w.pubkeyToAddress key.PrivateKey.PublicKey)).1
        (w.pendingNonceAt c (w.pubkeyToAddress key.PrivateKey.PublicKey)).2,
      .newKeyedTransactor key.PrivateKey (w.chainID c).1 none, .close c],
      .ret { base with
        Nonce := some (int64OfUint64
          (w.pendingNonceAt c (w.pubkeyToAddress key.PrivateKey.PublicKey)).1)
        GasLimit := 5000000
        GasFeeCap := some gasFeeCap
        GasTipCap := some tipCap }⟩ := by
  simp [main, osGetwd, godotenvLoad, osGetenv, osReadFile, keystoreDecryptKey, deref,
    cryptoPubkeyToAddress, ethclientDialContext, withDefer, clientClose, clientChainID,
    clientPendingNonceAt, bindNewKeyedTransactorWithChainID, h1, h2, h3, h4, h5, h6,
    IfErrFatal, logFatalf, emit, osExit, bind, Run.bind, pure]

/-- Every run of `main` has one of seven shapes: it stops at the first checked call
that fails, or all six succeed. -/
theorem main_shape (w : World) :
    (∃ e, w.getwd = .error e) ∨
    (∃ cwd e, w.getwd = .ok cwd ∧ w.load (w.join cwd ".env") = some e) ∨
    (∃ cwd e, w.getwd = .ok cwd ∧ w.load (w.join cwd ".env") = none ∧
      w.readFile walletPath = .error e) ∨
    (∃ cwd file e, w.getwd = .ok cwd ∧ w.load (w.join cwd ".env") = none ∧
      w.readFile walletPath = .ok file ∧
      w.decryptKey file (w.getenv "PASS_WALLET_OWNER") = .error e) ∨
    (∃ cwd file key e, w.getwd = .ok cwd ∧ w.load (w.join cwd ".env") = none ∧
      w.readFile walletPath = .ok file ∧
      w.decryptKey file (w.getenv "PASS_WALLET_OWNER") = .ok key ∧
      w.dialContext (w.getenv "DEPLOY_URL") = .error e) ∨
    (∃ cwd file key c e, w.getwd = .ok cwd ∧ w.load (w.join cwd ".env") = none ∧
      w.readFile walletPath = .ok file ∧
      w.decryptKey file (w.getenv "PASS_WALLET_OWNER") = .ok key ∧
      w.dialContext (w.getenv "DEPLOY_URL") = .ok c ∧
      w.newKeyedTransactorWithChainID key.PrivateKey (w.chainID c).1 = .error e) ∨
    (∃ cwd file key c base, w.getwd = .ok cwd ∧ w.load (w.join cwd ".env") = none ∧
      w.readFile walletPath = .ok file ∧
      w.decryptKey file (w.getenv "PASS_WALLET_OWNER") = .ok key ∧
      w.dialContext (w.getenv "DEPLOY_URL") = .ok c ∧
      w.newKeyedTransactorWithChainID key.PrivateKey (w.chainID c).1 = .ok base) := by
  rcases h1 : w.getwd with e | cwd
  · exact Or.inl ⟨e, rfl⟩
  rcases h2 : w.load (w.join cwd ".env") with _ | e
  swap
  · exact Or.inr (Or.inl ⟨cwd, e, rfl, h2⟩)
  rcases h3 : w.readFile walletPath with e | file
  · exact Or.inr (Or.inr (Or.inl ⟨cwd, e, rfl, h2, rfl⟩))
  rcases h4 : w.decryptKey file (w.getenv "PASS_WALLET_OWNER") with e | key
  · exact Or.inr (Or.inr (Or.inr (Or.inl ⟨cwd, file, e, rfl, h2, rfl, h4⟩)))
  rcases h5 : w.dialContext (w.getenv "DEPLOY_URL") with e | c
  · exact Or.inr (Or.inr (Or.inr (Or.inr (Or.inl ⟨cwd, file, key, e, rfl, h2, rfl, h4, rfl⟩))))
  rcases h6 : w.newKeyedTransactorWithChainID key.PrivateKey (w.chainID c).1 with e | base
  · exact Or.inr (Or.inr (Or.inr (Or.inr (Or.inr (Or.inl
      ⟨cwd, file, key, c, e, rfl, h2, rfl, h4, rfl, h6⟩)))))
  · exact Or.inr (Or.inr (Or.inr (Or.inr (Or.inr (Or.inr
      ⟨cwd, file, key, c, base, rfl, h2, rfl, h4, rfl, h6⟩)))))

/-- The conversion is the identity below `2 ^ 63`. -/
theorem int64OfUint64_small (n : Nat) (h : n < 2 ^ 63) : int64OfUint64 n = (n : Int) := by
  have h64 : n % 2 ^ 64 = n := Nat.mod_eq_of_lt (by omega)
  unfold int64OfUint64
  rw [h64, if_pos h]

/-- The conversion wraps from `2 ^ 63` on. -/
theorem int64OfUint64_large (n : Nat) (h : 2 ^ 63 ≤ n) (h64 : n < 2 ^ 64) :
    int64OfUint64 n = (n : Int) - 2 ^ 64 := by
  have hm : n % 2 ^ 64 = n := Nat.mod_eq_of_lt h64
  have hn : ¬ n < 2 ^ 63 := by omega
  unfold int64OfUint64
  rw [hm, if_neg hn]

/-! ## The claims -/

/-- C5. `IfErrFatal err msg` ends the process exactly when `err` is non-nil: on a nil
error it returns with no event at all, for every `msg`; on a non-nil error it writes
the single log record `Error in <msg>: <err>` and exits with status 1, and whatever
the caller would do next is not run. -/
theorem IfErrFatal_fatal_iff_error (err : Option GoError) (e : GoError) (msg : String) :
    IfErrFatal none msg = ⟨[], .ret ()⟩ ∧
    IfErrFatal (some e) msg
      = ⟨[.log ("Error in " ++ msg ++ ": " ++ e.text), .exit 1], .exited 1⟩ ∧
    (∀ (β : Type) (next : Unit → Run β), (IfErrFatal (some e) msg >>= next)
      = ⟨[.log ("Error in " ++ msg ++ ": " ++ e.text), .exit 1], .exited 1⟩) ∧
    ((∃ code, (IfErrFatal err msg).outcome = .exited code) ↔ err ≠ none) ∧
    ((IfErrFatal err msg).outcome = .ret () ↔ err = none) := by
  refine ⟨rfl, rfl, fun β next => rfl, ?_, ?_⟩
  · cases err with
    | none => simp [IfErrFatal, pure]
    | some x => simp [IfErrFatal, logFatalf, emit, osExit, bind, Run.bind]
  · cases err with
    | none => simp [IfErrFatal, pure]
    | some x => simp [IfErrFatal, logFatalf, emit, osExit, bind, Run.bind]

/-- C1. When every checked call succeeds and the node answers chain ID 1 and pending
nonce 5, `main` ends normally with the context that `NewKeyedTransactorWithChainID`
returned for chain ID 1, carrying Nonce 5, GasLimit 5000000, GasFeeCap
20000000 + 1000000000 = 1020000000 and GasTipCap 1000000000; and in every world, any
context `main` ends with has these three gas values, GasFeeCap being
baseFee + GasTipCap. -/
theorem main_resolves_parameters (w : World) (cwd : String) (file : List Nat) (key : Key)
    (c : Client) (base : TransactOpts)
    (h1 : w.getwd = .ok cwd) (h2 : w.load (w.join cwd ".env") = none)
    (h3 : w.readFile walletPath = .ok file)
    (h4 : w.decryptKey file (w.getenv "PASS_WALLET_OWNER") = .ok key)
    (h5 : w.dialContext (w.getenv "DEPLOY_URL") = .ok c)
    (hchain : w.chainID c = (some 1, none))
    (hnonce : w.pendingNonceAt c (w.pubkeyToAddress key.PrivateKey.PublicKey) = (5, none))
    (h6 : w.newKeyedTransactorWithChainID key.PrivateKey (some 1) = .ok base) :
    (main w).outcome = .ret { base with
      Nonce := some 5
      GasLimit := 5000000
      GasFeeCap := some 1020000000
      GasTipCap := some 1000000000 } ∧
    Event.newKeyedTransactor key.PrivateKey (some 1) none ∈ (main w).events ∧
    (20000000 + 1000000000 : Int) = 1020000000 ∧
    ∀ (v : World) (opts : TransactOpts), (main v).outcome = .ret opts →
      opts.GasLimit = 5000000 ∧ opts.GasFeeCap = some 1020000000 ∧
      opts.GasTipCap = some 1000000000 ∧ opts.GasFeeCap = some (baseFee + 1000000000) ∧
      baseFee = 20000000 := by
  have h6a : w.newKeyedTransactorWithChainID key.PrivateKey (w.chainID c).1 = .ok base := by
    rw [hchain]; exact h6
  refine ⟨?_, ?_, by norm_num, ?_⟩
  · rw [main_bind_ok w cwd file key c base h1 h2 h3 h4 h5 h6a, hnonce]
    simp [int64OfUint64, gasFeeCap, baseFee, tipCap]
  · rw [main_bind_ok w cwd file key c base h1 h2 h3 h4 h5 h6a, hchain]
    simp
  · intro v opts hv
    rcases main_shape v with ⟨e, g1⟩ | ⟨d, e, g1, g2⟩ | ⟨d, e, g1, g2, g3⟩ |
      ⟨d, f, e, g1, g2, g3, g4⟩ | ⟨d, f, k, e, g1, g2, g3, g4, g5⟩ |
      ⟨d, f, k, cl, e, g1, g2, g3, g4, g5, g6⟩ | ⟨d, f, k, cl, b, g1, g2, g3, g4, g5, g6⟩
    · rw [main_getwd_error v e g1] at hv; simp at hv
    · rw [main_load_error v d e g1 g2] at hv; simp at hv
    · rw [main_readFile_error v d e g1 g2 g3] at hv; simp at hv
    · rw [main_decryptKey_error v d f e g1 g2 g3 g4] at hv; simp at hv
    · rw [main_dial_error v d f k e g1 g2 g3 g4 g5] at hv; simp at hv
    · rw [main_bind_error v d f k cl e g1 g2 g3 g4 g5 g6] at hv; simp at hv
    · rw [main_bind_ok v d f k cl b g1 g2 g3 g4 g5 g6] at hv
      simp at hv
      subst hv
      simp [gasFeeCap, baseFee, tipCap]

/-- C1, at `worldOk`. -/
theorem main_resolves_parameters_witness :
    (main worldOk).outcome = .ret ⟨7, 1, some 5, 5000000, some 1020000000, some 1000000000⟩ ∧
    Event.newKeyedTransactor sampleKey.PrivateKey (some 1) none ∈ (main worldOk).events :=
  let t := main_resolves_parameters worldOk "/w" [1, 2, 3] sampleKey 42
    ⟨7, 1, none, 0, none, none⟩ rfl rfl rfl rfl rfl rfl rfl rfl
  ⟨t.1, t.2.1⟩

/-- C8. The base-fee constant of line 46 is 20000000 wei, which is 0.02 Gwei and not
the 20 Gwei its comment announces, on the scale where the tip constant 1000000000 is
1 Gwei; so the fee cap of a run is 1020000000 and not 21000000000. -/
theorem baseFee_is_not_20_gwei :
    baseFee = 20000000 ∧ tipCap = 1 * 10 ^ 9 ∧ baseFee ≠ 20 * 10 ^ 9 ∧
    baseFee * 1000 = 20 * 10 ^ 9 ∧
    (main worldOk).outcome
      = .ret ⟨7, 1, some 5, 5000000, some (20000000 + 1000000000), some 1000000000⟩ ∧
    (main worldOk).outcome
      ≠ .ret ⟨7, 1, some 5, 5000000, some (20 * 10 ^ 9 + 1000000000), some 1000000000⟩ := by
  refine ⟨rfl, by norm_num [tipCap], by norm_num [baseFee], by norm_num [baseFee], by decide,
    by decide⟩

/-- C10. The nonce of the signing context is the queried pending nonce read as a
signed 64-bit integer: for a `uint64` answer `n` (with or without an error next to
it), `main` ends with Nonce `n` when `n < 2 ^ 63` and `n - 2 ^ 64` when `n ≥ 2 ^ 63`;
below `2 ^ 63` the conversion is the identity and strictly increasing. -/
theorem nonce_is_int64_of_pending_nonce (w : World) (cwd : String) (file : List Nat)
    (key : Key) (c : Client) (base : TransactOpts) (n : Nat) (en : Option GoError)
    (h1 : w.getwd = .ok cwd) (h2 : w.load (w.join cwd ".env") = none)
    (h3 : w.readFile walletPath = .ok file)
    (h4 : w.decryptKey file (w.getenv "PASS_WALLET_OWNER") = .ok key)
    (h5 : w.dialContext (w.getenv "DEPLOY_URL") = .ok c)
    (h6 : w.newKeyedTransactorWithChainID key.PrivateKey (w.chainID c).1 = .ok base)
    (hnonce : w.pendingNonceAt c (w.pubkeyToAddress key.PrivateKey.PublicKey) = (n, en))
    (hn : n < 2 ^ 64) :
    (∃ opts, (main w).outcome = .ret opts ∧
      opts.Nonce = some (if n < 2 ^ 63 then (n : Int) else (n : Int) - 2 ^ 64)) ∧
    (n < 2 ^ 63 → int64OfUint64 n = (n : Int)) ∧
    (∀ a b : Nat, a < b → b < 2 ^ 63 → int64OfUint64 a < int64OfUint64 b) := by
  refine ⟨?_, int64OfUint64_small n, ?_⟩
  · rw [main_bind_ok w cwd file key c base h1 h2 h3 h4 h5 h6, hnonce]
    refine ⟨_, rfl, ?_⟩
    by_cases hs : n < 2 ^ 63
    · rw [if_pos hs]
      exact congrArg some (int64OfUint64_small n hs)
    · rw [if_neg hs]
      exact congrArg some (int64OfUint64_large n (by omega) hn)
  · intro a b hab hb
    rw [int64OfUint64_small a (by omega), int64OfUint64_small b hb]
    exact_mod_cast hab

/-- C10, at `worldHugeNonce`: the answer `2 ^ 64 - 1` becomes Nonce `-1`. -/
theorem nonce_is_int64_of_pending_nonce_witness :
    worldHugeNonce.pendingNonceAt 42 7 = (2 ^ 64 - 1, none) ∧
    ∃ opts, (main worldHugeNonce).outcome = .ret opts ∧
      opts.Nonce = some (if 2 ^ 64 - 1 < 2 ^ 63 then ((2 ^ 64 - 1 : Nat) : Int)
        else ((2 ^ 64 - 1 : Nat) : Int) - 2 ^ 64) :=
  ⟨rfl, (nonce_is_int64_of_pending_nonce worldHugeNonce "/w" [1, 2, 3] sampleKey 42
    ⟨7, 1, none, 0, none, none⟩ (2 ^ 64 - 1) none rfl rfl rfl rfl rfl rfl rfl
    (by norm_num)).1⟩

/-- C6. `main` ends fatally (exit status 1, and it ends in no other abnormal way)
exactly when one of the six checked calls (`os.Getwd`, `godotenv.Load`,
`os.ReadFile`, `keystore.DecryptKey`, `ethclient.DialContext`,
`bind.NewKeyedTransactorWithChainID`) returns a non-nil error in the run; the chain-ID
and nonce queries are not among them. The failing call is then the first one (every
event before it is a call without fatal label), it is followed by the log record
with its label and by `os.Exit(1)`, and by nothing else. -/
theorem main_fatal_iff_checked_failure (w : World) :
    ((main w).outcome = .exited 1 ↔ ∃ ev ∈ (main w).events, ev.fatalLabel ≠ none) ∧
    ((main w).outcome = .exited 1 ∨ ∃ opts, (main w).outcome = .ret opts) ∧
    (∀ c v a n e, (Event.chainID c v e).fatalLabel = none ∧
      (Event.pendingNonceAt c a n e).fatalLabel = none) ∧
    (∀ ev line, ev ∈ (main w).events → ev.fatalLabel = some line →
      ∃ pre, (main w).events = pre ++ [ev, .log line, .exit 1] ∧
        ∀ x ∈ pre, x.fatalLabel = none ∧ x.isCall = true) := by
  refine ⟨?_, ?_, fun c v a n e => ⟨rfl, rfl⟩, ?_⟩
  · rcases main_shape w with ⟨e, g1⟩ | ⟨d, e, g1, g2⟩ | ⟨d, e, g1, g2, g3⟩ |
      ⟨d, f, e, g1, g2, g3, g4⟩ | ⟨d, f, k, e, g1, g2, g3, g4, g5⟩ |
      ⟨d, f, k, cl, e, g1, g2, g3, g4, g5, g6⟩ | ⟨d, f, k, cl, b, g1, g2, g3, g4, g5, g6⟩
    · rw [main_getwd_error w e g1]; simp [Event.fatalLabel]
    · rw [main_load_error w d e g1 g2]; simp [Event.fatalLabel]
    · rw [main_readFile_error w d e g1 g2 g3]; simp [Event.fatalLabel]
    · rw [main_decryptKey_error w d f e g1 g2 g3 g4]; simp [Event.fatalLabel]
    · rw [main_dial_error w d f k e g1 g2 g3 g4 g5]; simp [Event.fatalLabel]
    · rw [main_bind_error w d f k cl e g1 g2 g3 g4 g5 g6]; simp [Event.fatalLabel]
    · rw [main_bind_ok w d f k cl b g1 g2 g3 g4 g5 g6]; simp [Event.fatalLabel]
  · rcases main_shape w with ⟨e, g1⟩ | ⟨d, e, g1, g2⟩ | ⟨d, e, g1, g2, g3⟩ |
      ⟨d, f, e, g1, g2, g3, g4⟩ | ⟨d, f, k, e, g1, g2, g3, g4, g5⟩ |
      ⟨d, f, k, cl, e, g1, g2, g3, g4, g5, g6⟩ | ⟨d, f, k, cl, b, g1, g2, g3, g4, g5, g6⟩
    · rw [main_getwd_error w e g1]; simp
    · rw [main_load_error w d e g1 g2]; simp
    · rw [main_readFile_error w d e g1 g2 g3]; simp
    · rw [main_decryptKey_error w d f e g1 g2 g3 g4]; simp
    · rw [main_dial_error w d f k e g1 g2 g3 g4 g5]; simp
    · rw [main_bind_error w d f k cl e g1 g2 g3 g4 g5 g6]; simp
    · rw [main_bind_ok w d f k cl b g1 g2 g3 g4 g5 g6]; simp
  · intro ev line hmem hl
    rcases main_shape w with ⟨e, g1⟩ | ⟨d, e, g1, g2⟩ | ⟨d, e, g1, g2, g3⟩ |
      ⟨d, f, e, g1, g2, g3, g4⟩ | ⟨d, f, k, e, g1, g2, g3, g4, g5⟩ |
      ⟨d, f, k, cl, e, g1, g2, g3, g4, g5, g6⟩ | ⟨d, f, k, cl, b, g1, g2, g3, g4, g5, g6⟩
    · rw [main_getwd_error w e g1] at hmem ⊢
      simp only [List.mem_cons, List.mem_singleton, List.not_mem_nil, or_false] at hmem
      rcases hmem with rfl | rfl | rfl
      all_goals try (simp [Event.fatalLabel] at hl; done)
      simp only [Event.fatalLabel, Option.some.injEq] at hl
      subst hl
      exact ⟨[], rfl, by simp⟩
    · rw [main_load_error w d e g1 g2] at hmem ⊢
      simp only [List.mem_cons, List.mem_singleton, List.not_mem_nil, or_false] at hmem
      rcases hmem with rfl | rfl | rfl | rfl
      all_goals try (simp [Event.fatalLabel] at hl; done)
      simp only [Event.fatalLabel, Option.some.injEq] at hl
      subst hl
      exact ⟨[.getwd none], rfl, by simp [Event.fatalLabel, Event.isCall]⟩
    · rw [main_readFile_error w d e g1 g2 g3] at hmem ⊢
      simp only [List.mem_cons, List.mem_singleton, List.not_mem_nil, or_false] at hmem
      rcases hmem with rfl | rfl | rfl | rfl | rfl | rfl | rfl
      all_goals try (simp [Event.fatalLabel] at hl; done)
      simp only [Event.fatalLabel, Option.some.injEq] at hl
      subst hl
      exact ⟨[.getwd none, .load (w.join d ".env") none, .getenv "DEPLOY_URL",
        .getenv "PASS_WALLET_OWNER"], rfl, by simp [Event.fatalLabel, Event.isCall]⟩
    · rw [main_decryptKey_error w d f e g1 g2 g3 g4] at hmem ⊢
      simp only [List.mem_cons, List.mem_singleton, List.not_mem_nil, or_false] at hmem
      rcases hmem with rfl | rfl | rfl | rfl | rfl | rfl | rfl | rfl
      all_goals try (simp [Event.fatalLabel] at hl; done)
      simp only [Event.fatalLabel, Option.some.injEq] at hl
      subst hl
      exact ⟨[.getwd none, .load (w.join d ".env") none, .getenv "DEPLOY_URL",
        .getenv "PASS_WALLET_OWNER", .readFile walletPath none], rfl,
        by simp [Event.fatalLabel, Event.isCall]⟩
    · rw [main_dial_error w d f k e g1 g2 g3 g4 g5] at hmem ⊢
      simp only [List.mem_cons, List.mem_singleton, List.not_mem_nil, or_false] at hmem
      rcases hmem with rfl | rfl | rfl | rfl | rfl | rfl | rfl | rfl | rfl | rfl
      all_goals try (simp [Event.fatalLabel] at hl; done)
      simp only [Event.fatalLabel, Option.some.injEq] at hl
      subst hl
      exact ⟨[.getwd none, .load (w.join d ".env") none, .getenv "DEPLOY_URL",
        .getenv "PASS_WALLET_OWNER", .readFile walletPath none,
        .decryptKey f (w.getenv "PASS_WALLET_OWNER") none,
        .pubkeyToAddress k.PrivateKey.PublicKey], rfl,
        by simp [Event.fatalLabel, Event.isCall]⟩
    · rw [main_bind_error w d f k cl e g1 g2 g3 g4 g5 g6] at hmem ⊢
      simp only [List.mem_cons, List.mem_singleton, List.not_mem_nil, or_false] at hmem
      rcases hmem with rfl | rfl | rfl | rfl | rfl | rfl | rfl | rfl | rfl | rfl | rfl | rfl | rfl
      all_goals try (simp [Event.fatalLabel] at hl; done)
      simp only [Event.fatalLabel, Option.some.injEq] at hl
      subst hl
      exact ⟨[.getwd none, .load (w.join d ".env") none, .getenv "DEPLOY_URL",
        .getenv "PASS_WALLET_OWNER", .readFile walletPath none,
        .decryptKey f (w.getenv "PASS_WALLET_OWNER") none,
        .pubkeyToAddress k.PrivateKey.PublicKey, .dial (w.getenv "DEPLOY_URL") none,
        .chainID cl (w.chainID cl).1 (w.chainID cl).2,
        .pendingNonceAt cl (w.pubkeyToAddress k.PrivateKey.PublicKey)
          (w.pendingNonceAt cl (w.pubkeyToAddress k.PrivateKey.PublicKey)).1
          (w.pendingNonceAt cl (w.pubkeyToAddress k.PrivateKey.PublicKey)).2], rfl,
        by simp [Event.fatalLabel, Event.isCall]⟩
    · rw [main_bind_ok w d f k cl b g1 g2 g3 g4 g5 g6] at hmem
      simp only [List.mem_cons, List.mem_singleton, List.not_mem_nil, or_false] at hmem
      rcases hmem with rfl | rfl | rfl | rfl | rfl | rfl | rfl | rfl | rfl | rfl | rfl | rfl
      all_goals exact absurd hl (by simp [Event.fatalLabel])

/-- C4. A failure of identity loading is fatal where it happens: when
`godotenv.Load`, `os.ReadFile` of the keystore or `keystore.DecryptKey` returns an
error in a run of `main`, the run ends with exit status 1 right after that call and
its log record; no address is derived, no node connection is opened, queried or
closed, no signing context is built, and `main` does not end with a context. -/
theorem identity_failure_is_fatal (w : World) (ev : Event) (hmem : ev ∈ (main w).events)
    (hfail : ev.identityFailure = true) :
    (main w).outcome = .exited 1 ∧
    (∃ pre line, (main w).events = pre ++ [ev, .log line, .exit 1]) ∧
    (∀ x ∈ (main w).events, x.afterIdentity = false) ∧
    (∀ opts, (main w).outcome ≠ .ret opts) := by
  rcases main_shape w with ⟨e, g1⟩ | ⟨d, e, g1, g2⟩ | ⟨d, e, g1, g2, g3⟩ |
    ⟨d, f, e, g1, g2, g3, g4⟩ | ⟨d, f, k, e, g1, g2, g3, g4, g5⟩ |
    ⟨d, f, k, cl, e, g1, g2, g3, g4, g5, g6⟩ | ⟨d, f, k, cl, b, g1, g2, g3, g4, g5, g6⟩
  · rw [main_getwd_error w e g1] at hmem
    simp only [List.mem_cons, List.mem_singleton, List.not_mem_nil, or_false] at hmem
    rcases hmem with rfl | rfl | rfl
    all_goals exact absurd hfail (by simp [Event.identityFailure])
  · rw [main_load_error w d e g1 g2] at hmem ⊢
    simp only [List.mem_cons, List.mem_singleton, List.not_mem_nil, or_false] at hmem
    rcases hmem with rfl | rfl | rfl | rfl
    all_goals try (simp [Event.identityFailure] at hfail; done)
    exact ⟨rfl, ⟨[.getwd none], _, rfl⟩, by simp [Event.afterIdentity], by simp⟩
  · rw [main_readFile_error w d e g1 g2 g3] at hmem ⊢
    simp only [List.mem_cons, List.mem_singleton, List.not_mem_nil, or_false] at hmem
    rcases hmem with rfl | rfl | rfl | rfl | rfl | rfl | rfl
    all_goals try (simp [Event.identityFailure] at hfail; done)
    exact ⟨rfl, ⟨[.getwd none, .load (w.join d ".env") none, .getenv "DEPLOY_URL",
      .getenv "PASS_WALLET_OWNER"], _, rfl⟩, by simp [Event.afterIdentity], by simp⟩
  · rw [main_decryptKey_error w d f e g1 g2 g3 g4] at hmem ⊢
    simp only [List.mem_cons, List.mem_singleton, List.not_mem_nil, or_false] at hmem
    rcases hmem with rfl | rfl | rfl | rfl | rfl | rfl | rfl | rfl
    all_goals try (simp [Event.identityFailure] at hfail; done)
    exact ⟨rfl, ⟨[.getwd none, .load (w.join d ".env") none, .getenv "DEPLOY_URL",
      .getenv "PASS_WALLET_OWNER", .readFile walletPath none], _, rfl⟩,
      by simp [Event.afterIdentity], by simp⟩
  · rw [main_dial_error w d f k e g1 g2 g3 g4 g5] at hmem
    simp only [List.mem_cons, List.mem_singleton, List.not_mem_nil, or_false] at hmem
    rcases hmem with rfl | rfl | rfl | rfl | rfl | rfl | rfl | rfl | rfl | rfl
    all_goals exact absurd hfail (by simp [Event.identityFailure])
  · rw [main_bind_error w d f k cl e g1 g2 g3 g4 g5 g6] at hmem
    simp only [List.mem_cons, List.mem_singleton, List.not_mem_nil, or_false] at hmem
    rcases hmem with rfl | rfl | rfl | rfl | rfl | rfl | rfl | rfl | rfl | rfl | rfl | rfl | rfl
    all_goals exact absurd hfail (by simp [Event.identityFailure])
  · rw [main_bind_ok w d f k cl b g1 g2 g3 g4 g5 g6] at hmem
    simp only [List.mem_cons, List.mem_singleton, List.not_mem_nil, or_false] at hmem
    rcases hmem with rfl | rfl | rfl | rfl | rfl | rfl | rfl | rfl | rfl | rfl | rfl | rfl
    all_goals exact absurd hfail (by simp [Event.identityFailure])

/-- C4, at `worldLoadFails`. -/
theorem identity_failure_is_fatal_witness :
    Event.load "/w/.env" (some ⟨"open /w/.env: no such file or directory"⟩)
      ∈ (main worldLoadFails).events ∧
    (main worldLoadFails).outcome = .exited 1 ∧
    (∀ x ∈ (main worldLoadFails).events, x.afterIdentity = false) :=
  let t := identity_failure_is_fatal worldLoadFails
    (.load "/w/.env" (some ⟨"open /w/.env: no such file or directory"⟩)) (by decide) rfl
  ⟨by decide, t.1, t.2.2.1⟩

/-- C2, at `worldNonceFails`: `PendingNonceAt` returns an error, and `main` writes no
log record, does not exit, and ends normally with a populated context (Nonce 0). -/
theorem nonce_query_failure_is_not_fatal :
    main worldNonceFails = ⟨[.getwd none, .load "/w/.env" none, .getenv "DEPLOY_URL",
      .getenv "PASS_WALLET_OWNER", .readFile walletPath none,
      .decryptKey [1, 2, 3] "secret" none, .pubkeyToAddress ⟨11, 13⟩,
      .dial "http://node" none, .chainID 42 (some 1) none,
      .pendingNonceAt 42 7 0 (some ⟨"connection reset"⟩),
      .newKeyedTransactor ⟨⟨11, 13⟩, 17⟩ (some 1) none, .close 42],
      .ret ⟨7, 1, some 0, 5000000, some 1020000000, some 1000000000⟩⟩ := by
  decide

/-- C3, at `worldChainIDFails`: the connection is opened, `NewKeyedTransactorWithChainID`
fails, `IfErrFatal` exits, and the deferred `Close` is never run: one open, no close.
In `worldOk`, where `main` returns, the counts balance. -/
theorem connection_not_closed_on_fatal_exit :
    Event.dial "http://node" none ∈ (main worldChainIDFails).events ∧
    Event.newKeyedTransactor ⟨⟨11, 13⟩, 17⟩ none (some ⟨"no chain id specified"⟩)
      ∈ (main worldChainIDFails).events ∧
    (main worldChainIDFails).outcome = .exited 1 ∧
    openCount (main worldChainIDFails).events = 1 ∧
    closeCount (main worldChainIDFails).events = 0 ∧
    openCount (main worldOk).events = 1 ∧ closeCount (main worldOk).events = 1 := by
  decide

/-- C7. Provided the transactor constructor sets `From` to the address of the key it
is given (as go-ethereum's does), the address `main` passes to `PendingNonceAt`, which
is `PubkeyToAddress` of the decrypted key's public key, is the `From` of the context
the constructor returns for the decrypted private key, and `main` ends with a context
that still has this `From`. -/
theorem nonce_address_is_context_From (w : World) (cwd : String) (file : List Nat)
    (key : Key) (c : Client) (base : TransactOpts)
    (h1 : w.getwd = .ok cwd) (h2 : w.load (w.join cwd ".env") = none)
    (h3 : w.readFile walletPath = .ok file)
    (h4 : w.decryptKey file (w.getenv "PASS_WALLET_OWNER") = .ok key)
    (h5 : w.dialContext (w.getenv "DEPLOY_URL") = .ok c)
    (h6 : w.newKeyedTransactorWithChainID key.PrivateKey (w.chainID c).1 = .ok base)
    (hlib : ∀ k cid o, w.newKeyedTransactorWithChainID k cid = .ok o →
      o.From = w.pubkeyToAddress k.PublicKey) :
    (∀ c1 a n en, Event.pendingNonceAt c1 a n en ∈ (main w).events → a = base.From) ∧
    (∃ n en, Event.pendingNonceAt c base.From n en ∈ (main w).events) ∧
    base.From = w.pubkeyToAddress key.PrivateKey.PublicKey ∧
    (∃ opts, (main w).outcome = .ret opts ∧ opts.From = base.From) := by
  have hfrom : base.From = w.pubkeyToAddress key.PrivateKey.PublicKey := hlib _ _ _ h6
  rw [main_bind_ok w cwd file key c base h1 h2 h3 h4 h5 h6]
  refine ⟨?_, ?_, hfrom, _, rfl, rfl⟩
  · intro c1 a n en hmem
    simp only [List.mem_cons, List.mem_singleton, List.not_mem_nil, or_false,
      Event.pendingNonceAt.injEq] at hmem
    simp at hmem
    rw [hfrom]
    exact hmem.2.1
  · rw [hfrom]
    exact ⟨(w.pendingNonceAt c (w.pubkeyToAddress key.PrivateKey.PublicKey)).1,
      (w.pendingNonceAt c (w.pubkeyToAddress key.PrivateKey.PublicKey)).2, by simp⟩

/-- C7, at `worldOk`. -/
theorem nonce_address_is_context_From_witness :
    (∃ n en, Event.pendingNonceAt 42 7 n en ∈ (main worldOk).events) ∧
    (∃ opts, (main worldOk).outcome = .ret opts ∧ opts.From = 7) :=
  let t := nonce_address_is_context_From worldOk "/w" [1, 2, 3] sampleKey 42
    ⟨7, 1, none, 0, none, none⟩ rfl rfl rfl rfl rfl rfl
    (fun k cid o h => by
      cases cid with
      | none => simp [worldOk] at h
      | some n =>
        simp only [worldOk, Except.ok.injEq] at h
        subst h
        rfl)
  ⟨t.2.1, t.2.2.2⟩

/-- C9, as stated, fails at `worldChainIDFails`: every checked call before the
chain-ID query succeeds, the query returns an error, and `main` builds no signing
context: it exits at the transactor constructor, which refuses the nil chain ID. -/
theorem chainID_failure_builds_no_context :
    (main worldChainIDFails).events = [.getwd none, .load "/w/.env" none,
      .getenv "DEPLOY_URL", .getenv "PASS_WALLET_OWNER", .readFile walletPath none,
      .decryptKey [1, 2, 3] "secret" none, .pubkeyToAddress ⟨11, 13⟩,
      .dial "http://node" none, .chainID 42 none (some ⟨"connection reset"⟩),
      .pendingNonceAt 42 7 5 none,
      .newKeyedTransactor ⟨⟨11, 13⟩, 17⟩ none (some ⟨"no chain id specified"⟩),
      .log "Error in failed to bind: no chain id specified", .exit 1] ∧
    ¬ ∃ opts, (main worldChainIDFails).outcome = .ret opts := by
  refine ⟨by decide, ?_⟩
  rintro ⟨opts, h⟩
  have hx : (main worldChainIDFails).outcome = .exited 1 := by decide
  rw [hx] at h
  cases h

/-- C9, amended. The errors of the chain-ID and nonce queries are discarded: when
every checked call before them succeeds, then whatever the two queries return, error
or not, `main` does not stop at them; they are followed by the call of
`NewKeyedTransactorWithChainID` with the chain ID that was returned (nil after a
chain-ID query that failed with the zero value). When that call succeeds `main` ends
with the context built from it, with Nonce 0 after a nonce query that failed with
the zero value; when it fails `main` exits there with the label `failed to bind`. -/
theorem failed_queries_reach_transactor (w : World) (cwd : String) (file : List Nat)
    (key : Key) (c : Client) (e : GoError)
    (h1 : w.getwd = .ok cwd) (h2 : w.load (w.join cwd ".env") = none)
    (h3 : w.readFile walletPath = .ok file)
    (h4 : w.decryptKey file (w.getenv "PASS_WALLET_OWNER") = .ok key)
    (h5 : w.dialContext (w.getenv "DEPLOY_URL") = .ok c) :
    (∃ r rest, (main w).events = [.getwd none, .load (w.join cwd ".env") none,
      .getenv "DEPLOY_URL", .getenv "PASS_WALLET_OWNER", .readFile walletPath none,
      .decryptKey file (w.getenv "PASS_WALLET_OWNER") none,
      .pubkeyToAddress key.PrivateKey.PublicKey, .dial (w.getenv "DEPLOY_URL") none,
      .chainID c (w.chainID c).1 (w.chainID c).2,
      .pendingNonceAt c (w.pubkeyToAddress key.PrivateKey.PublicKey)
        (w.pendingNonceAt c (w.pubkeyToAddress key.PrivateKey.PublicKey)).1
        (w.pendingNonceAt c (w.pubkeyToAddress key.PrivateKey.PublicKey)).2,
      .newKeyedTransactor key.PrivateKey (w.chainID c).1 r] ++ rest) ∧
    (w.chainID c = (none, some e) →
      ∃ r, Event.newKeyedTransactor key.PrivateKey none r ∈ (main w).events) ∧
    (∀ base, w.newKeyedTransactorWithChainID key.PrivateKey (w.chainID c).1 = .ok base →
      (main w).outcome = .ret { base with
        Nonce := some (int64OfUint64
          (w.pendingNonceAt c (w.pubkeyToAddress key.PrivateKey.PublicKey)).1)
        GasLimit := 5000000
        GasFeeCap := some 1020000000
        GasTipCap := some 1000000000 } ∧
      (w.pendingNonceAt c (w.pubkeyToAddress key.PrivateKey.PublicKey) = (0, some e) →
        ∃ opts, (main w).outcome = .ret opts ∧ opts.Nonce = some 0)) ∧
    (∀ eb, w.newKeyedTransactorWithChainID key.PrivateKey (w.chainID c).1 = .error eb →
      (main w).outcome = .exited 1 ∧
      Event.log ("Error in failed to bind: " ++ eb.text) ∈ (main w).events) := by
  have hok : ∀ base,
      w.newKeyedTransactorWithChainID key.PrivateKey (w.chainID c).1 = .ok base →
      (main w).outcome = .ret { base with
        Nonce := some (int64OfUint64
          (w.pendingNonceAt c (w.pubkeyToAddress key.PrivateKey.PublicKey)).1)
        GasLimit := 5000000
        GasFeeCap := some 1020000000
        GasTipCap := some 1000000000 } := by
    intro base h6
    rw [main_bind_ok w cwd file key c base h1 h2 h3 h4 h5 h6]
    simp [gasFeeCap, baseFee, tipCap]
  have hev : ∃ r rest, (main w).events = [.getwd none, .load (w.join cwd ".env") none,
      .getenv "DEPLOY_URL", .getenv "PASS_WALLET_OWNER", .readFile walletPath none,
      .decryptKey file (w.getenv "PASS_WALLET_OWNER") none,
      .pubkeyToAddress key.PrivateKey.PublicKey, .dial (w.getenv "DEPLOY_URL") none,
      .chainID c (w.chainID c).1 (w.chainID c).2,
      .pendingNonceAt c (w.pubkeyToAddress key.PrivateKey.PublicKey)
        (w.pendingNonceAt c (w.pubkeyToAddress key.PrivateKey.PublicKey)).1
        (w.pendingNonceAt c (w.pubkeyToAddress key.PrivateKey.PublicKey)).2,
      .newKeyedTransactor key.PrivateKey (w.chainID c).1 r] ++ rest := by
    rcases h6 : w.newKeyedTransactorWithChainID key.PrivateKey (w.chainID c).1 with eb | base
    · rw [main_bind_error w cwd file key c eb h1 h2 h3 h4 h5 h6]
      exact ⟨some eb, [.log ("Error in failed to bind: " ++ eb.text), .exit 1], rfl⟩
    · rw [main_bind_ok w cwd file key c base h1 h2 h3 h4 h5 h6]
      exact ⟨none, [.close c], rfl⟩
  refine ⟨hev, ?_, ?_, ?_⟩
  · intro hq
    obtain ⟨r, rest, hr⟩ := hev
    refine ⟨r, ?_⟩
    rw [hr, hq]
    simp
  · intro base h6
    refine ⟨hok base h6, fun hp => ⟨_, hok base h6, ?_⟩⟩
    rw [hp]
    rfl
  · intro eb h6
    rw [main_bind_error w cwd file key c eb h1 h2 h3 h4 h5 h6]
    simp

/-- C9 amended, at `worldNonceFails`: the nonce query fails and `main` ends with
Nonce 0. -/
theorem failed_queries_reach_transactor_witness :
    worldNonceFails.pendingNonceAt 42 7 = (0, some ⟨"connection reset"⟩) ∧
    ∃ opts, (main worldNonceFails).outcome = .ret opts ∧ opts.Nonce = some 0 :=
  let t := failed_queries_reach_transactor worldNonceFails "/w" [1, 2, 3] sampleKey 42
    ⟨"connection reset"⟩ rfl rfl rfl rfl rfl
  ⟨rfl, (t.2.2.1 ⟨7, 1, none, 0, none, none⟩ rfl).2 rfl⟩

end Ohara
